import Mathlib

/-!
Verification development for the microcrop-setup data processor.

The definitions below are shallow embeddings of the Python sources under
src/data-processor/src/. Real-valued quantities are modelled as rationals,
timestamps as natural-number day (or second) indices. Fallible code is
modelled with Except/Option. Each definition names the source function it
embeds; order-insensitive aggregates (sums, maxima, means, counts) drop the
initial sort-by-timestamp of the source because the sort cannot change them.
-/

namespace Microcrop

/-- Maximum of a list of rationals, 0 for the empty list: the embedding of
the CPython builtin max with default 0, and of the max over dict values
accumulated key by key. -/
def listMax : List ℚ → ℚ
  | [] => 0
  | x :: xs => xs.foldl max x

/-- Minimum of a list of rationals, 0 for the empty list (only applied to
provably nonempty lists, where it matches the CPython builtin min). -/
def listMin : List ℚ → ℚ
  | [] => 0
  | x :: xs => xs.foldl min x

/-! ## Weather data model, from src/models/weather.py and
src/processors/weather_processor.py -/

/-- One station sample, from the WeatherData model (src/models/weather.py).
The timestamp is abstracted to a UTC calendar-day index `day`; fields that
feed no verified computation (position, humidity, pressure, wind, solar,
uv, soil temperature) are omitted. -/
structure WeatherData where
  stationId : ℕ
  day : ℕ
  temperature : ℚ
  rainfall : ℚ
  rainfallRate : Option ℚ
  soilMoisture : Option ℚ
  dataQuality : ℚ
deriving DecidableEq, Repr

/-- Threshold configuration read by WeatherProcessor.__init__ from
src/config/settings.py. -/
structure WSettings where
  droughtThresholdMM : ℚ
  droughtSevereDays : ℕ
  floodThresholdMM : ℚ
  floodSevereMM : ℚ
  heatThresholdCelsius : ℚ
  heatDaysThreshold : ℕ
deriving DecidableEq, Repr

/-- Default settings values: DROUGHT_THRESHOLD_MM = 20, DROUGHT_SEVERE_DAYS = 14,
FLOOD_THRESHOLD_MM = 150, FLOOD_SEVERE_MM = 200, HEAT_THRESHOLD_CELSIUS = 35,
and the literal 7 assigned to heat_days_threshold in WeatherProcessor.__init__. -/
def defaultSettings : WSettings := ⟨20, 14, 150, 200, 35, 7⟩

/-- Ascending list of the distinct calendar days present in a sample list:
the sorted key set of the daily-aggregation dicts built by
_aggregate_daily_rainfall and _aggregate_daily_max_temperature. -/
def sortedDays (ws : List WeatherData) : List ℕ :=
  List.insertionSort (· ≤ ·) ((ws.map (·.day)).dedup)

/-- Total rainfall of one day: the per-key sum built by
_aggregate_daily_rainfall. -/
def dailyRainfall (ws : List WeatherData) (d : ℕ) : ℚ :=
  ((ws.filter (fun w => w.day == d)).map (·.rainfall)).sum

/-- Maximum temperature of one day: the per-key running max built by
_aggregate_daily_max_temperature (only consulted for days present in the
list, where it is the maximum of a nonempty list). -/
def dailyMaxTemp (ws : List WeatherData) (d : ℕ) : ℚ :=
  listMax ((ws.filter (fun w => w.day == d)).map (·.temperature))

/-- Longest run of consecutive entries satisfying p, with the running
current/max counters of _calculate_consecutive_dry_days and its wet/hot
variants. -/
def maxRun (p : ℚ → Bool) (l : List ℚ) : ℕ :=
  (l.foldl (fun st v => if p v then (st.1 + 1, max st.2 (st.1 + 1)) else (0, st.2))
    ((0 : ℕ), (0 : ℕ))).2

/-- Embedding of _calculate_consecutive_dry_days: longest run of days with
daily rainfall below 1 mm, over the ascending day list. -/
def consecutiveDryDays (ws : List WeatherData) : ℕ :=
  maxRun (fun r => decide (r < 1)) ((sortedDays ws).map (dailyRainfall ws))

/-- Embedding of _calculate_consecutive_wet_days: longest run of days with
daily rainfall above 10 mm. -/
def consecutiveWetDays (ws : List WeatherData) : ℕ :=
  maxRun (fun r => decide (r > 10)) ((sortedDays ws).map (dailyRainfall ws))

/-- Embedding of _calculate_consecutive_hot_days: longest run of days whose
daily maximum temperature exceeds the threshold. -/
def consecutiveHotDays (ws : List WeatherData) (threshold : ℚ) : ℕ :=
  maxRun (fun t => decide (t > threshold)) ((sortedDays ws).map (dailyMaxTemp ws))

/-- Embedding of _calculate_days_since_significant_rain: position of the
first day with more than 10 mm in the descending day list, or the number of
days when none qualifies (List.findIdx returns the length in that case). -/
def daysSinceSignificantRain (ws : List WeatherData) : ℕ :=
  ((sortedDays ws).reverse).findIdx (fun d => decide (dailyRainfall ws d > 10))

/-- Sum of all daily rainfall values, as sum(daily_rainfall.values()). -/
def totalDailyRainfall (ws : List WeatherData) : ℚ :=
  ((sortedDays ws).map (dailyRainfall ws)).sum

/-- Embedding of _calculate_cumulative_rainfall: the running maximum over
all windows of k consecutive entries of the ascending day list of the
summed daily rainfall, starting from 0; the whole-period sum when fewer
than k days are present. -/
def cumulativeRainfall (ws : List WeatherData) (k : ℕ) : ℚ :=
  if (sortedDays ws).length < k then totalDailyRainfall ws
  else
    ((List.range ((sortedDays ws).length - k + 1)).map
      (fun i => ((((sortedDays ws).drop i).take k).map (dailyRainfall ws)).sum)).foldl max 0

/-- Mean soil moisture over samples that carry one (the is-not-None filter
of _calculate_drought_index), none when no sample does. -/
def soilMoistureMean (ws : List WeatherData) : Option ℚ :=
  let data := ws.filterMap (·.soilMoisture)
  if data.isEmpty then none else some (data.sum / data.length)

/-- Embedding of _calculate_drought_score. The water_stress_ratio parameter
of the source is omitted: the source function never reads it. -/
def droughtScore (s : WSettings) (rainfallDeficit : ℚ) (consecutiveDry daysSinceRain : ℕ)
    (soilMoisture : Option ℚ) : ℚ :=
  let sc1 : ℚ := if rainfallDeficit > 0 then min (2/5) (rainfallDeficit / 100) else 0
  let sc2 : ℚ :=
    if consecutiveDry ≥ s.droughtSevereDays then
      min (3/10) (((consecutiveDry - s.droughtSevereDays : ℕ) : ℚ) / 20)
    else 0
  let sc3 : ℚ := min (1/5) ((daysSinceRain : ℚ) / 30)
  let sc4 : ℚ :=
    match soilMoisture with
    | some m => if m < 30 then 1/10 else if m < 50 then 1/20 else 0
    | none => 0
  min 1 (sc1 + sc2 + sc3 + sc4)

/-- Embedding of _calculate_flood_score. -/
def floodScore (s : WSettings) (maxDaily cumulative3day maxIntensity : ℚ)
    (consecutiveWet : ℕ) (soilSaturation : Option ℚ) : ℚ :=
  let sc1 : ℚ := if maxDaily > s.floodThresholdMM then
    min (3/10) ((maxDaily - s.floodThresholdMM) / 100) else 0
  let sc2 : ℚ := if cumulative3day > 100 then min (3/10) ((cumulative3day - 100) / 200) else 0
  let sc3 : ℚ := if maxIntensity > s.floodSevereMM then
    min (1/5) ((maxIntensity - s.floodSevereMM) / 20) else 0
  let sc4 : ℚ := if consecutiveWet ≥ 5 then min (1/10) ((consecutiveWet : ℚ) / 10) else 0
  let sc5 : ℚ :=
    match soilSaturation with
    | some v => if v > 90 then 1/10 else 0
    | none => 0
  min 1 (sc1 + sc2 + sc3 + sc4 + sc5)

/-- Embedding of _calculate_heat_stress_score. The heat_dd parameter of the
source is omitted: the source function never reads it. -/
def heatStressScore (s : WSettings) (maxTemp avgMaxTemp : ℚ)
    (consecutiveHot extremeDays : ℕ) : ℚ :=
  let sc1 : ℚ := if maxTemp > s.heatThresholdCelsius then
    min (3/10) ((maxTemp - s.heatThresholdCelsius) / 15) else 0
  let sc2 : ℚ := if avgMaxTemp > 30 then min (1/5) ((avgMaxTemp - 30) / 10) else 0
  let sc3 : ℚ :=
    if consecutiveHot ≥ s.heatDaysThreshold then
      min (3/10) (((consecutiveHot - s.heatDaysThreshold : ℕ) : ℚ) / 10)
    else 0
  let sc4 : ℚ := if extremeDays > 0 then min (1/5) ((extremeDays : ℚ) / 5) else 0
  min 1 (sc1 + sc2 + sc3 + sc4)

/-- Embedding of _determine_drought_severity. -/
def determineDroughtSeverity (score : ℚ) : String :=
  if score < 1/5 then "none"
  else if score < 2/5 then "mild"
  else if score < 3/5 then "moderate"
  else if score < 4/5 then "severe"
  else "extreme"

/-- Embedding of _determine_flood_risk. -/
def determineFloodRisk (score : ℚ) : String :=
  if score < 1/5 then "none"
  else if score < 2/5 then "low"
  else if score < 3/5 then "moderate"
  else if score < 4/5 then "high"
  else "critical"

/-- Embedding of _determine_heat_stress_level. -/
def determineHeatStressLevel (score : ℚ) : String :=
  if score < 1/5 then "none"
  else if score < 2/5 then "mild"
  else if score < 3/5 then "moderate"
  else if score < 4/5 then "severe"
  else "extreme"

/-- Embedding of _calculate_composite_stress: the compounding rule uses
strict comparisons with 0.4, and the dominant tag is chosen by comparing
the maximum with each score in the order drought, flood, heat. -/
def calculateCompositeStress (droughtSc floodSc heatSc : ℚ) : ℚ × String :=
  if droughtSc > 2/5 ∧ heatSc > 2/5 then
    (min 1 (droughtSc + heatSc * (1/2)), "combined")
  else
    let maxScore := max (max droughtSc floodSc) heatSc
    let dominant :=
      if maxScore = droughtSc ∧ droughtSc > 3/10 then "drought"
      else if maxScore = floodSc ∧ floodSc > 3/10 then "flood"
      else if maxScore = heatSc ∧ heatSc > 3/10 then "heat"
      else "none"
    (maxScore, dominant)

/-- Result of _calculate_drought_index, keeping the fields that feed the
verified claims (ET-demand fields are omitted: they feed nothing). -/
structure DroughtIndexR where
  rainfallDeficit : ℚ
  consecutiveDry : ℕ
  daysSinceRain : ℕ
  soilMoistureLevel : Option ℚ
  droughtScore : ℚ
  severityLevel : String
deriving DecidableEq, Repr

/-- Embedding of _calculate_drought_index. -/
def droughtIndexOf (s : WSettings) (nDays : ℕ) (ws : List WeatherData) : DroughtIndexR :=
  let expected := s.droughtThresholdMM * nDays
  let deficit := max 0 (expected - totalDailyRainfall ws)
  let cd := consecutiveDryDays ws
  let dsr := daysSinceSignificantRain ws
  let sm := soilMoistureMean ws
  let ds := droughtScore s deficit cd dsr sm
  ⟨deficit, cd, dsr, sm, ds, determineDroughtSeverity ds⟩

/-- Maximum daily rainfall: max(daily_rainfall.values()) if nonempty else 0. -/
def maxDailyRainfall (ws : List WeatherData) : ℚ :=
  listMax ((sortedDays ws).map (dailyRainfall ws))

/-- Maximum rainfall intensity over samples with a truthy rainfall_rate
(None and 0.0 are both excluded by the generator condition), default 0. -/
def maxRainfallIntensity (ws : List WeatherData) : ℚ :=
  listMax (ws.filterMap (fun w =>
    match w.rainfallRate with
    | some r => if r = 0 then none else some r
    | none => none))

/-- Maximum soil moisture over samples with a truthy soil_moisture value
(the flood path filters with truthiness, so 0.0 is excluded), none when no
sample qualifies. -/
def soilSaturationMax (ws : List WeatherData) : Option ℚ :=
  match ws.filterMap (fun w =>
      match w.soilMoisture with
      | some m => if m = 0 then none else some m
      | none => none) with
  | [] => none
  | m :: ms => some (ms.foldl max m)

/-- Result of _calculate_flood_index, keeping the fields that feed the
verified claims. -/
structure FloodIndexR where
  maxDailyRainfall : ℚ
  cumulative3day : ℚ
  cumulative7day : ℚ
  maxRainfallIntensity : ℚ
  consecutiveWet : ℕ
  soilSaturationLevel : Option ℚ
  floodScore : ℚ
  riskLevel : String
deriving DecidableEq, Repr

/-- Embedding of _calculate_flood_index. -/
def floodIndexOf (s : WSettings) (ws : List WeatherData) : FloodIndexR :=
  let maxDaily := maxDailyRainfall ws
  let cum3 := cumulativeRainfall ws 3
  let cum7 := cumulativeRainfall ws 7
  let intensity := maxRainfallIntensity ws
  let wet := consecutiveWetDays ws
  let sat := soilSaturationMax ws
  let fs := floodScore s maxDaily cum3 intensity wet sat
  ⟨maxDaily, cum3, cum7, intensity, wet, sat, fs, determineFloodRisk fs⟩

/-- Maximum over the daily maximum temperatures, 0 when no day is present. -/
def maxTempOf (ws : List WeatherData) : ℚ :=
  listMax ((sortedDays ws).map (dailyMaxTemp ws))

/-- Mean of the daily maximum temperatures, 0 when no day is present. -/
def avgMaxTempOf (ws : List WeatherData) : ℚ :=
  let l := (sortedDays ws).map (dailyMaxTemp ws)
  if l.isEmpty then 0 else l.sum / l.length

/-- Count of days whose daily maximum temperature exceeds 40. -/
def extremeHeatDaysOf (ws : List WeatherData) : ℕ :=
  ((sortedDays ws).map (dailyMaxTemp ws)).countP (fun t => decide (t > 40))

/-- Result of _calculate_heat_stress_index, keeping the fields that feed
the verified claims (degree days, optimal days and the humidity index feed
nothing verified). -/
structure HeatIndexR where
  maxTemperature : ℚ
  avgMaxTemperature : ℚ
  consecutiveHot : ℕ
  extremeHeatDays : ℕ
  heatStressScore : ℚ
  stressLevel : String
deriving DecidableEq, Repr

/-- Embedding of _calculate_heat_stress_index. The consecutive-hot-day
threshold is the literal 35 of the source call site. -/
def heatIndexOf (s : WSettings) (ws : List WeatherData) : HeatIndexR :=
  let mt := maxTempOf ws
  let avg := avgMaxTempOf ws
  let hot := consecutiveHotDays ws 35
  let extreme := extremeHeatDaysOf ws
  let hs := heatStressScore s mt avg hot extreme
  ⟨mt, avg, hot, extreme, hs, determineHeatStressLevel hs⟩

/-- Mean sample quality, from _calculate_data_quality. -/
def dataQualityOf (ws : List WeatherData) : ℚ :=
  if ws.isEmpty then 0 else (ws.map (·.dataQuality)).sum / ws.length

/-- Embedding of _calculate_confidence. -/
def confidenceOf (dataQuality : ℚ) (dataPoints : ℕ) : ℚ :=
  dataQuality * (7/10) + min (3/10) ((dataPoints : ℚ) / 100 * (3/10))

/-- Result of calculate_weather_indices, keeping the fields that feed the
verified claims (anomaly detection feeds nothing verified). -/
structure WeatherIndicesR where
  drought : DroughtIndexR
  flood : FloodIndexR
  heatStress : HeatIndexR
  compositeStressScore : ℚ
  dominantStress : String
  dataPoints : ℕ
  dataQuality : ℚ
  confidenceScore : ℚ
deriving DecidableEq, Repr

/-- Embedding of WeatherProcessor.calculate_weather_indices over one window
of nDays days: none models the ValueError raised on an empty sample list. -/
def calculateWeatherIndices (s : WSettings) (nDays : ℕ) (ws : List WeatherData) :
    Option WeatherIndicesR :=
  if ws.isEmpty then none
  else
    let d := droughtIndexOf s nDays ws
    let f := floodIndexOf s ws
    let h := heatIndexOf s ws
    let c := calculateCompositeStress d.droughtScore f.floodScore h.heatStressScore
    let q := dataQualityOf ws
    some ⟨d, f, h, c.1, c.2, ws.length, q, confidenceOf q ws.length⟩

/-! ## Biomass reducer, from PlanetClient.get_biomass_timeseries in
src/integrations/planet_client.py -/

/-- One parsed CSV row of a biomass delivery; the data-quality tag is
derived from cloud cover below, as in the parse loop. -/
structure BiomassPoint where
  date : ℕ
  biomassProxy : ℚ
  cloudCover : ℚ
deriving DecidableEq, Repr

/-- Quality tag derived from cloud cover in the CSV parse loop. -/
def pointQuality (p : BiomassPoint) : String :=
  if p.cloudCover < 1/10 then "high"
  else if p.cloudCover < 3/10 then "medium"
  else "low"

/-- Numeric value of a quality tag, the quality_scores dict of the source. -/
def qualityScoreOf (q : String) : ℚ :=
  if q = "high" then 3 else if q = "medium" then 2 else 1

/-- Stable ascending sort by date, as timeseries_data.sort(key=...). -/
def sortByDate (l : List BiomassPoint) : List BiomassPoint :=
  List.insertionSort (fun a b => a.date ≤ b.date) l

/-- Closed-form simple-linear-regression slope of value against index, as
computed by the n, sum_x, sum_y, sum_xy, sum_x2 block of the source. -/
def biomassSlope (values : List ℚ) : ℚ :=
  let n : ℚ := values.length
  let xs := (List.range values.length).map (fun i => (i : ℚ))
  let sumX := xs.sum
  let sumY := values.sum
  let sumXY := ((xs.zip values).map (fun p => p.1 * p.2)).sum
  let sumX2 := (xs.map (fun x => x * x)).sum
  (n * sumXY - sumX * sumY) / (n * sumX2 - sumX * sumX)

/-- Statistics block of the BiomassTimeseries response. -/
structure BiomassStats where
  currentBiomass : ℚ
  baselineBiomass : ℚ
  minBiomass : ℚ
  maxBiomass : ℚ
  biomassTrend : ℚ
  deviationPercent : ℚ
  lastUpdated : ℕ
  dataQuality : String
deriving DecidableEq, Repr

/-- Failure modes of the reducer: noData models the ValueError raised on an
empty series, divisionByZero models the unguarded ZeroDivisionError raised
by the deviation_percent division when the baseline is 0. -/
inductive BiomassError
  | noData
  | divisionByZero
deriving DecidableEq, Repr

/-- Embedding of the statistics part of get_biomass_timeseries: sort by
date, then current / min / max / baseline / trend / deviation / quality.
The deviation division has no zero guard in the source, so a zero baseline
is modelled as the divisionByZero error. -/
def reduceBiomass (points : List BiomassPoint) : Except BiomassError BiomassStats :=
  match sortByDate points with
  | [] => .error .noData
  | p :: ps =>
    let sorted := p :: ps
    let values := sorted.map (·.biomassProxy)
    let current := values.getLastD 0
    let minB := listMin values
    let maxB := listMax values
    let k := min 5 values.length
    let baseline := (values.take k).sum / k
    let trend : ℚ :=
      if values.length > 1 then max (-1) (min 1 (biomassSlope values * 10)) else 0
    if baseline = 0 then .error .divisionByZero
    else
      let deviation := (baseline - current) / baseline * 100
      let avgQ := ((sorted.map (fun q => qualityScoreOf (pointQuality q))).sum) / sorted.length
      let overall :=
        if avgQ ≥ 5/2 then "high" else if avgQ ≥ 3/2 then "medium" else "low"
      .ok ⟨current, baseline, minB, maxB, trend, deviation, (sorted.getLastD p).date, overall⟩

/-! ## Damage assessment preparation, from _calculate_damage_assessment in
src/workers/damage_tasks.py -/

/-- Caller-supplied arguments of calculate_damage_assessment. -/
structure AssessInputs where
  plotId : String
  policyId : String
  farmerAddress : String
  assessmentPeriodDays : ℕ
  sumInsuredUsdc : Option ℚ
  maxPayoutUsdc : Option ℚ
deriving DecidableEq, Repr

/-- Row of the policies table consulted when amounts are missing. -/
structure PolicyRow where
  sumInsuredUsdc : ℚ
  maxPayoutUsdc : ℚ
  farmerAddress : String
deriving DecidableEq, Repr

/-- Dict returned by _calculate_damage_assessment (status and message are
constants and omitted). -/
structure AssessResult where
  assessmentId : String
  plotId : String
  policyId : String
  farmerAddress : String
  periodStart : ℕ
  periodEnd : ℕ
  periodDays : ℕ
  weatherIndices : String
  satelliteImageCount : ℕ
  sumInsuredUsdc : ℚ
  maxPayoutUsdc : ℚ
deriving DecidableEq, Repr

/-- Python or-with-default on a float option: None and 0.0 are both falsy. -/
def pyOr (a : Option ℚ) (b : ℚ) : ℚ :=
  match a with
  | none => b
  | some v => if v = 0 then b else v

/-- Python or-with-default on a string: the empty string is falsy. -/
def pyStrOr (a b : String) : String :=
  if a = "" then b else a

/-- Embedding of _calculate_damage_assessment. Wall-clock time is the
parameter now (a second-resolution timestamp): the assessment id embeds it
via strftime, and the assessment window is [now - period, now]. The weather
rows and satellite images are the database snapshots the two queries see;
weather rows are kept opaque as strings. The error models the ValueError
raised when no weather index row exists. -/
def calculateDamageAssessment (inp : AssessInputs) (now : ℕ) (policy : Option PolicyRow)
    (weatherRows : List String) (satelliteCount : ℕ) : Except String AssessResult :=
  let assessmentId := "DA_" ++ inp.plotId ++ "_" ++ toString now
  let endDate := now
  let startDate := now - inp.assessmentPeriodDays
  let resolved :=
    if inp.sumInsuredUsdc.isNone ∨ inp.maxPayoutUsdc.isNone then
      match policy with
      | some p =>
        (pyOr inp.sumInsuredUsdc p.sumInsuredUsdc, pyOr inp.maxPayoutUsdc p.maxPayoutUsdc,
          pyStrOr inp.farmerAddress p.farmerAddress)
      | none => (pyOr inp.sumInsuredUsdc 10000, pyOr inp.maxPayoutUsdc 7000, inp.farmerAddress)
    else (inp.sumInsuredUsdc.getD 0, inp.maxPayoutUsdc.getD 0, inp.farmerAddress)
  match weatherRows with
  | [] => .error "No weather indices available"
  | w :: _ =>
    .ok ⟨assessmentId, inp.plotId, inp.policyId, resolved.2.2, startDate, endDate,
      inp.assessmentPeriodDays, w, satelliteCount, resolved.1, resolved.2.1⟩

/-! ## Weather-station client retry behaviour, from the tenacity decorator
on WeatherXMClient.get_station_data in src/integrations/weatherxm_client.py -/

/-- Outcome of one HTTP attempt: success, a raised httpx.HTTPStatusError
with the response status code, a raised httpx network error, or a raised
JSON decode error. -/
inductive AttemptOutcome
  | success
  | httpStatus (code : ℕ)
  | networkError
  | decodeError
deriving DecidableEq, Repr

/-- Whether the outcome is a raised httpx.HTTPError: both status errors
(any status, 4xx included) and network errors are subclasses, decode errors
are not. -/
def isHTTPError : AttemptOutcome → Bool
  | .httpStatus _ => true
  | .networkError => true
  | _ => false

/-- Embedding of the tenacity loop with stop_after_attempt(3) and
retry_if_exception_type(httpx.HTTPError): given the outcome of each
attempt, return how many attempts run and the final outcome. An attempt is
followed by another one exactly when it raised an httpx.HTTPError and fewer
than 3 attempts have run. -/
def retryRun (o : ℕ → AttemptOutcome) : ℕ × AttemptOutcome :=
  if isHTTPError (o 1) = false then (1, o 1)
  else if isHTTPError (o 2) = false then (2, o 2)
  else (3, o 3)

/-- Embedding of wait_exponential(multiplier=1, min=2, max=10): the sleep
before retry number n+1, for the n-th attempt. -/
def waitExponential (attemptNumber : ℕ) : ℚ :=
  max (max 0 2) (min ((2 : ℚ) ^ attemptNumber) 10)

/-! ## Subscription lifecycle, from src/workers/planet_tasks.py,
src/api/routes/planet.py and PlanetClient.cancel_subscription -/

/-- Stored subscription status values of the planet_subscriptions table. -/
inductive SubStatus
  | requested
  | active
  | cancelled
  | expired
  | failed
deriving DecidableEq, Repr

/-- Terminal statuses: cancelled, expired and failed. -/
def SubStatus.isTerminal : SubStatus → Bool
  | .cancelled => true
  | .expired => true
  | .failed => true
  | _ => false

/-- Progress rank of a status: 0 before activation, 1 while active, 2 in
any terminal state. -/
def SubStatus.rank : SubStatus → ℕ
  | .requested => 0
  | .active => 1
  | .cancelled => 2
  | .expired => 2
  | .failed => 2

/-- One row of planet_subscriptions (fields that feed the verified claims). -/
structure SubRecord where
  subscriptionId : ℕ
  status : SubStatus
  endDate : ℕ
deriving DecidableEq, Repr

/-- One row of subscription_status_history. -/
structure HistoryRow where
  subscriptionId : ℕ
  oldStatus : SubStatus
  newStatus : SubStatus
deriving DecidableEq, Repr

/-- Database state touched by the lifecycle: the subscription rows and the
status-history audit rows. -/
structure SubDB where
  subs : List SubRecord
  history : List HistoryRow
deriving DecidableEq, Repr

/-- Outcome of the upstream Planet API call made by cancel_subscription. -/
inductive UpstreamResult
  | ok
  | httpStatusError (code : ℕ)
  | exn
deriving DecidableEq, Repr

/-- Embedding of PlanetClient.cancel_subscription: True on success and
False on both an httpx.HTTPStatusError and any other exception; the source
catches both and never propagates. -/
def cancelSubscription : UpstreamResult → Bool
  | .ok => true
  | .httpStatusError _ => false
  | .exn => false

/-- Per-record effect of _check_active_subscriptions_async: records with
status active (the SQL filter) whose status fetch succeeded and whose end
date has passed are marked expired; everything else is untouched (a failed
fetch skips the record inside its try block). -/
def statusSweepRecord (now : ℕ) (fetchOk : ℕ → Bool) (r : SubRecord) : SubRecord :=
  if r.status = .active ∧ fetchOk r.subscriptionId ∧ now > r.endDate then
    { r with status := .expired }
  else r

/-- Embedding of _check_active_subscriptions_async over the whole table. -/
def checkActiveSubscriptions (now : ℕ) (fetchOk : ℕ → Bool) (db : SubDB) : SubDB :=
  { db with subs := db.subs.map (statusSweepRecord now fetchOk) }

/-- Selection and success condition of the expired-subscription sweep:
status active, end date passed, and the upstream cancel reported success. -/
def cancelSweepHits (now : ℕ) (upstream : ℕ → UpstreamResult) (r : SubRecord) : Bool :=
  decide (r.status = .active) && decide (r.endDate < now) &&
    cancelSubscription (upstream r.subscriptionId)

/-- Per-record effect of _cancel_expired_subscriptions_async: a hit is
marked cancelled, anything else (not selected, or upstream cancel returned
False) is untouched. -/
def cancelSweepRecord (now : ℕ) (upstream : ℕ → UpstreamResult) (r : SubRecord) : SubRecord :=
  if cancelSweepHits now upstream r then { r with status := .cancelled } else r

/-- Embedding of _cancel_expired_subscriptions_async: hits are marked
cancelled and one audit row (active to cancelled) is inserted per hit. -/
def cancelExpiredSubscriptions (now : ℕ) (upstream : ℕ → UpstreamResult) (db : SubDB) : SubDB :=
  ⟨db.subs.map (cancelSweepRecord now upstream),
    db.history ++ (db.subs.filter (cancelSweepHits now upstream)).map
      (fun r => ⟨r.subscriptionId, .active, .cancelled⟩)⟩

/-- Per-record effect of the DELETE subscription route: when the upstream
cancel succeeded, the matching row is set to cancelled with no filter on
its current status; on upstream failure the handler raises before any
database write. -/
def cancelCommandRecord (subId : ℕ) (ok : Bool) (r : SubRecord) : SubRecord :=
  if ok ∧ r.subscriptionId = subId then { r with status := .cancelled } else r

/-- Embedding of the DELETE subscription route acting on the table. -/
def cancelCommand (subId : ℕ) (ok : Bool) (db : SubDB) : SubDB :=
  { db with subs := db.subs.map (cancelCommandRecord subId ok) }

/-- Status-update events applied to the subscription table: the 6-hourly
status sweep, the daily end-date sweep, and the explicit cancel command. -/
inductive SubEvent
  | statusSweep (now : ℕ) (fetchOk : ℕ → Bool)
  | cancelSweep (now : ℕ) (upstream : ℕ → UpstreamResult)
  | cancelCmd (subId : ℕ) (ok : Bool)

/-- Effect of one event on the database. -/
def applyEvent : SubEvent → SubDB → SubDB
  | .statusSweep now f, db => checkActiveSubscriptions now f db
  | .cancelSweep now u, db => cancelExpiredSubscriptions now u db
  | .cancelCmd i ok, db => cancelCommand i ok db

/-- Effect of a sequence of events, applied left to right. -/
def applyEvents (evs : List SubEvent) (db : SubDB) : SubDB :=
  evs.foldl (fun d e => applyEvent e d) db

/-- Per-record effect of one event: every event rewrites the subscription
table pointwise with this function. -/
def eventRecordFn : SubEvent → SubRecord → SubRecord
  | .statusSweep now f => statusSweepRecord now f
  | .cancelSweep now u => cancelSweepRecord now u
  | .cancelCmd i ok => cancelCommandRecord i ok

/-! ## Specification-side definitions

These follow the wording of the specification (as amended where a claim
needed correction), to be compared with the embeddings above. -/

/-- Composite score as the amended composite rule words it: when drought
and heat both strictly exceed 0.4 the compounded min(1, drought + 0.5
heat), otherwise the maximum of the three sub-indices. -/
def compositeSpec (d f h : ℚ) : ℚ :=
  if 2/5 < d ∧ 2/5 < h then min 1 (d + h / 2) else max (max d f) h

/-- Dominant tag as the amended rule words it: combined in the compounding
case, otherwise the argmax sub-index when the maximum strictly exceeds
0.3 (ties resolved in the order drought, flood, heat), else none. -/
def dominantSpec (d f h : ℚ) : String :=
  if 2/5 < d ∧ 2/5 < h then "combined"
  else if f ≤ d ∧ h ≤ d ∧ 3/10 < d then "drought"
  else if h ≤ f ∧ 3/10 < f then "flood"
  else if 3/10 < h then "heat"
  else "none"

/-- List of all k-window sums of daily rainfall over the ascending day
list, used to state that the cumulative-rainfall value is their maximum. -/
def windowSums (ws : List WeatherData) (k : ℕ) : List ℚ :=
  (List.range ((sortedDays ws).length - k + 1)).map
    (fun i => ((((sortedDays ws).drop i).take k).map (dailyRainfall ws)).sum)

/-! ## Concrete inputs used by counterexamples and witnesses -/

/-- Two samples on consecutive days: rainfall 10/3 mm each (drought score
exactly 0.4 over a 2-day window under default settings) and temperatures
38 and 26 (heat score exactly 0.4). -/
def exWindow : List WeatherData :=
  [⟨0, 0, 38, 10/3, none, none, 1⟩, ⟨0, 1, 26, 10/3, none, none, 1⟩]

/-- The biomass scenario of the specification: values 0.80, 0.78, 0.76,
0.70, 0.60 on five consecutive dates, cloud cover 0. -/
def exBiomass : List BiomassPoint :=
  [⟨0, 4/5, 0⟩, ⟨1, 39/50, 0⟩, ⟨2, 19/25, 0⟩, ⟨3, 7/10, 0⟩, ⟨4, 3/5, 0⟩]

end Microcrop
namespace Microcrop

/-! ## Helper lemmas about running maxima and minima -/

theorem foldl_max_init_le (l : List ℚ) (a : ℚ) : a ≤ l.foldl max a := by
  induction l generalizing a with
  | nil => exact le_refl a
  | cons x xs ih => exact le_trans (le_max_left a x) (ih (max a x))

theorem le_foldl_max (l : List ℚ) (a x : ℚ) (hx : x ∈ l) : x ≤ l.foldl max a := by
  induction l generalizing a with
  | nil => cases hx
  | cons y ys ih =>
    rcases List.mem_cons.mp hx with h | h
    · subst h
      exact le_trans (le_max_right a x) (foldl_max_init_le ys (max a x))
    · exact ih (max a y) h

theorem foldl_max_mem (l : List ℚ) (a : ℚ) : l.foldl max a = a ∨ l.foldl max a ∈ l := by
  induction l generalizing a with
  | nil => exact Or.inl rfl
  | cons x xs ih =>
    rcases ih (max a x) with h | h
    · rcases le_total a x with hax | hxa
      · right
        rw [List.foldl_cons, h, max_eq_right hax]
        exact List.mem_cons_self x xs
      · left
        rw [List.foldl_cons, h, max_eq_left hxa]
    · right
      exact List.mem_cons_of_mem x h

theorem foldl_max_le (l : List ℚ) (a b : ℚ) (ha : a ≤ b) (h : ∀ x ∈ l, x ≤ b) :
    l.foldl max a ≤ b := by
  rcases foldl_max_mem l a with he | he
  · rw [he]; exact ha
  · exact h _ he

theorem foldl_max_mono_init (l : List ℚ) (a b : ℚ) (h : a ≤ b) :
    l.foldl max a ≤ l.foldl max b := by
  induction l generalizing a b with
  | nil => exact h
  | cons x xs ih => exact ih (max a x) (max b x) (max_le_max h le_rfl)

theorem foldl_min_init_le (l : List ℚ) (a : ℚ) : l.foldl min a ≤ a := by
  induction l generalizing a with
  | nil => exact le_refl a
  | cons x xs ih => exact le_trans (ih (min a x)) (min_le_left a x)

theorem foldl_min_le (l : List ℚ) (a x : ℚ) (hx : x ∈ l) : l.foldl min a ≤ x := by
  induction l generalizing a with
  | nil => cases hx
  | cons y ys ih =>
    rcases List.mem_cons.mp hx with h | h
    · subst h
      exact le_trans (foldl_min_init_le ys (min a x)) (min_le_right a x)
    · exact ih (min a y) h

theorem foldl_min_mem (l : List ℚ) (a : ℚ) : l.foldl min a = a ∨ l.foldl min a ∈ l := by
  induction l generalizing a with
  | nil => exact Or.inl rfl
  | cons x xs ih =>
    rcases ih (min a x) with h | h
    · rcases le_total a x with hax | hxa
      · left
        rw [List.foldl_cons, h, min_eq_left hax]
      · right
        rw [List.foldl_cons, h, min_eq_right hxa]
        exact List.mem_cons_self x xs
    · right
      exact List.mem_cons_of_mem x h

theorem listMax_mem (l : List ℚ) (h : l ≠ []) : listMax l ∈ l := by
  cases l with
  | nil => exact absurd rfl h
  | cons x xs =>
    rcases foldl_max_mem xs x with he | he
    · rw [listMax, he]; exact List.mem_cons_self x xs
    · exact List.mem_cons_of_mem x (by rw [listMax]; exact he)

theorem le_listMax (l : List ℚ) (x : ℚ) (hx : x ∈ l) : x ≤ listMax l := by
  cases l with
  | nil => cases hx
  | cons y ys =>
    rcases List.mem_cons.mp hx with h | h
    · subst h; exact foldl_max_init_le ys x
    · exact le_foldl_max ys y x h

theorem listMin_mem (l : List ℚ) (h : l ≠ []) : listMin l ∈ l := by
  cases l with
  | nil => exact absurd rfl h
  | cons x xs =>
    rcases foldl_min_mem xs x with he | he
    · rw [listMin, he]; exact List.mem_cons_self x xs
    · exact List.mem_cons_of_mem x (by rw [listMin]; exact he)

theorem listMin_le (l : List ℚ) (x : ℚ) (hx : x ∈ l) : listMin l ≤ x := by
  cases l with
  | nil => cases hx
  | cons y ys =>
    rcases List.mem_cons.mp hx with h | h
    · subst h; exact foldl_min_init_le ys x
    · exact foldl_min_le ys y x h

/-! ## C4: the baseline-zero branch of the biomass reducer -/

/-- C4. The claim states that a zero baseline makes the reducer report
deviation 0 instead of failing. In the source the division
(baseline - current) / baseline at planet_client.py line 276 has no zero
guard, so a series whose first min(5, n) values are 0 raises
ZeroDivisionError: on the one-sample series with value 0 the reducer
reaches the division-by-zero failure instead of returning deviation 0. -/
theorem c4_zero_baseline_division :
    reduceBiomass [⟨0, 0, 0⟩] = .error .divisionByZero := by
  simp [reduceBiomass, sortByDate, List.insertionSort, List.orderedInsert]

/-! ## C6: weather-station client retry policy -/

/-- C6 counterexample. The claim states that a 4xx status other than 429
is never retried, so the operation would fail after exactly 1 attempt. The
tenacity decorator retries on the class httpx.HTTPError, which includes
every status error: an operation answered 404 on every attempt runs 3
attempts, not 1. -/
theorem c6_retry_policy_counterexample :
    retryRun (fun _ => .httpStatus 404) = (3, .httpStatus 404)
    ∧ (retryRun (fun _ => .httpStatus 404)).1 ≠ 1 := by
  constructor
  · rfl
  · decide

/-- C6 amended. Every get_station_data call runs between 1 and 3 attempts;
a further attempt follows a failed one exactly when the failure is an
httpx.HTTPError, that is a network error or an HTTP status error of any
status (4xx included) - never after a success or a decode error; the sleep
between attempts is the exponential wait with base 2 seconds clamped to
at most 10 seconds. -/
theorem c6_retry_policy_amended :
    ∀ o : ℕ → AttemptOutcome,
      (1 ≤ (retryRun o).1 ∧ (retryRun o).1 ≤ 3)
      ∧ (2 ≤ (retryRun o).1 → isHTTPError (o 1) = true)
      ∧ (3 ≤ (retryRun o).1 → isHTTPError (o 1) = true ∧ isHTTPError (o 2) = true)
      ∧ (isHTTPError (o 1) = false → retryRun o = (1, o 1))
      ∧ (o 1 = .decodeError → retryRun o = (1, .decodeError))
      ∧ (o 1 = .success → retryRun o = (1, .success))
      ∧ (∀ n : ℕ, 2 ≤ waitExponential n ∧ waitExponential n ≤ 10) := by
  intro o
  have hwait : ∀ n : ℕ, 2 ≤ waitExponential n ∧ waitExponential n ≤ 10 := by
    intro n
    constructor
    · exact le_trans (by norm_num) (le_max_left (max 0 2) _)
    · refine max_le (by norm_num) (min_le_right _ _)
  by_cases h1 : isHTTPError (o 1) = false
  · refine ⟨by simp [retryRun, h1], ?_, ?_, ?_, ?_, ?_, hwait⟩
    · intro h2; simp [retryRun, h1] at h2
    · intro h3; simp [retryRun, h1] at h3
    · intro _; simp [retryRun, h1]
    · intro hd
      have hr : retryRun o = (1, o 1) := by simp [retryRun, h1]
      rw [hr, hd]
    · intro hs
      have hr : retryRun o = (1, o 1) := by simp [retryRun, h1]
      rw [hr, hs]
  · have h1t : isHTTPError (o 1) = true := by
      revert h1; cases isHTTPError (o 1) <;> simp
    by_cases h2 : isHTTPError (o 2) = false
    · refine ⟨by simp [retryRun, h1t, h2], ?_, ?_, ?_, ?_, ?_, hwait⟩
      · intro _; exact h1t
      · intro h3; simp [retryRun, h1t, h2] at h3
      · intro hc; rw [hc] at h1t; cases h1t
      · intro hd; rw [hd] at h1t; cases h1t
      · intro hs; rw [hs] at h1t; cases h1t
    · have h2t : isHTTPError (o 2) = true := by
        revert h2; cases isHTTPError (o 2) <;> simp
      refine ⟨by simp [retryRun, h1t, h2t], ?_, ?_, ?_, ?_, ?_, hwait⟩
      · intro _; exact h1t
      · intro _; exact ⟨h1t, h2t⟩
      · intro hc; rw [hc] at h1t; cases h1t
      · intro hd; rw [hd] at h1t; cases h1t
      · intro hs; rw [hs] at h1t; cases h1t

/-- C6 witness: the amended theorem applied at the constant network-error
outcome and at the constant success outcome. -/
theorem c6_retry_policy_witness :
    isHTTPError ((fun _ => AttemptOutcome.networkError) 1) = true
    ∧ retryRun (fun _ => AttemptOutcome.success) = (1, AttemptOutcome.success)
    ∧ 2 ≤ waitExponential 4 ∧ waitExponential 4 ≤ 10 := by
  refine ⟨(c6_retry_policy_amended (fun _ => AttemptOutcome.networkError)).2.1 (by decide),
    (c6_retry_policy_amended (fun _ => AttemptOutcome.success)).2.2.2.2.2.1 rfl,
    ((c6_retry_policy_amended (fun _ => AttemptOutcome.success)).2.2.2.2.2.2 4).1,
    ((c6_retry_policy_amended (fun _ => AttemptOutcome.success)).2.2.2.2.2.2 4).2⟩

/-! ## C10: failed upstream cancel leaves the stored record unchanged -/

/-- C10. PlanetClient.cancel_subscription returns False on an HTTP error
status and on any other exception instead of raising; in the
expired-subscription sweep a record whose upstream cancel did not succeed
keeps exactly its old row (the sweep writes the table pointwise through
cancelSweepRecord), and every status-history row the sweep appends belongs
to a subscription whose upstream cancel succeeded, so none is written for
the failed one. -/
theorem c10_cancel_failure_no_write :
    (∀ u : UpstreamResult, u ≠ .ok → cancelSubscription u = false)
    ∧ (∀ (now : ℕ) (upstream : ℕ → UpstreamResult) (r : SubRecord),
        cancelSubscription (upstream r.subscriptionId) = false →
        cancelSweepRecord now upstream r = r)
    ∧ (∀ (now : ℕ) (upstream : ℕ → UpstreamResult) (db : SubDB),
        (cancelExpiredSubscriptions now upstream db).subs =
          db.subs.map (cancelSweepRecord now upstream))
    ∧ (∀ (now : ℕ) (upstream : ℕ → UpstreamResult) (db : SubDB) (r : SubRecord),
        cancelSubscription (upstream r.subscriptionId) = false →
        ∀ h ∈ (cancelExpiredSubscriptions now upstream db).history,
          h ∈ db.history ∨ h.subscriptionId ≠ r.subscriptionId) := by
  refine ⟨?_, ?_, ?_, ?_⟩
  · intro u hu
    cases u with
    | ok => exact absurd rfl hu
    | httpStatusError code => rfl
    | exn => rfl
  · intro now upstream r hfail
    unfold cancelSweepRecord cancelSweepHits
    rw [hfail]
    simp
  · intro now upstream db
    rfl
  · intro now upstream db r hfail h hmem
    unfold cancelExpiredSubscriptions at hmem
    simp only [List.mem_append] at hmem
    rcases hmem with hold | hnew
    · exact Or.inl hold
    · right
      rcases List.mem_map.mp hnew with ⟨r2, hr2, hmk⟩
      have hhit := List.of_mem_filter hr2
      intro hid
      have hok : cancelSubscription (upstream r2.subscriptionId) = true := by
        unfold cancelSweepHits at hhit
        exact (Bool.and_eq_true_iff.mp hhit).2
      rw [← hmk] at hid
      simp only at hid
      rw [← hid] at hfail
      rw [hfail] at hok
      cases hok

/-- C10 witness: the theorem applied to a concrete failing upstream and a
one-row table. -/
theorem c10_cancel_failure_no_write_witness :
    cancelSubscription UpstreamResult.exn = false
    ∧ cancelSweepRecord 10 (fun _ => UpstreamResult.exn) ⟨1, SubStatus.active, 5⟩ =
        ⟨1, SubStatus.active, 5⟩ := by
  exact ⟨c10_cancel_failure_no_write.1 UpstreamResult.exn (by simp),
    c10_cancel_failure_no_write.2.1 10 (fun _ => UpstreamResult.exn)
      ⟨1, SubStatus.active, 5⟩ rfl⟩

/-! ## C3: determinism of the damage-assessment preparation -/

/-- C3 counterexample. The claim states that two invocations that agree on
plot id, policy id, window endpoints and the underlying weather and
biomass rows produce byte-identical evidence documents with equal content
identifiers. The source publishes nothing and returns a result dictionary
that also embeds the satellite-image count: two invocations below agree on
every input the claim lists (same inputs, same timestamp hence same window
endpoints, same weather rows; biomass rows are never read) yet return
different documents because the satellite rows differ. -/
theorem c3_bundler_determinism_counterexample :
    (calculateDamageAssessment ⟨"p1", "q1", "f1", 7, some 10000, some 7000⟩ 1000 none
        ["wrow"] 0).isOk = true
    ∧ (calculateDamageAssessment ⟨"p1", "q1", "f1", 7, some 10000, some 7000⟩ 1000 none
        ["wrow"] 1).isOk = true
    ∧ calculateDamageAssessment ⟨"p1", "q1", "f1", 7, some 10000, some 7000⟩ 1000 none
        ["wrow"] 0 ≠
      calculateDamageAssessment ⟨"p1", "q1", "f1", 7, some 10000, some 7000⟩ 1000 none
        ["wrow"] 1 := by
  refine ⟨rfl, rfl, ?_⟩
  intro h
  simp [calculateDamageAssessment] at h

/-- C3 amended. The result of _calculate_damage_assessment is a pure
function of the caller inputs, the invocation timestamp and the database
snapshots (weather rows, policy row, satellite rows), so invocations
agreeing on all of those return identical documents; the minted assessment
id is the string DA_(plot id)_(timestamp), determined by the plot id and
the invocation time alone - it is not a hash of plot, policy and window,
and agrees across invocations with different policies, periods, or rows;
no canonical document is serialised and no content identifier is produced
(the publish step was moved to the external workflow). -/
theorem c3_bundler_determinism_amended :
    ∀ (inpA inpB : AssessInputs) (now : ℕ) (polA polB : Option PolicyRow)
      (wrA wrB : List String) (scA scB : ℕ) (rA rB : AssessResult),
      calculateDamageAssessment inpA now polA wrA scA = .ok rA →
      calculateDamageAssessment inpB now polB wrB scB = .ok rB →
      inpA.plotId = inpB.plotId →
      rA.assessmentId = rB.assessmentId
      ∧ rA.assessmentId = "DA_" ++ inpA.plotId ++ "_" ++ toString now := by
  intro inpA inpB now polA polB wrA wrB scA scB rA rB hA hB hplot
  have idA : rA.assessmentId = "DA_" ++ inpA.plotId ++ "_" ++ toString now := by
    unfold calculateDamageAssessment at hA
    cases wrA with
    | nil => cases hA
    | cons w ws =>
      simp only [Except.ok.injEq] at hA
      rw [← hA]
  have idB : rB.assessmentId = "DA_" ++ inpB.plotId ++ "_" ++ toString now := by
    unfold calculateDamageAssessment at hB
    cases wrB with
    | nil => cases hB
    | cons w ws =>
      simp only [Except.ok.injEq] at hB
      rw [← hB]
  refine ⟨?_, idA⟩
  rw [idA, idB, hplot]

/-- C3 witness: the amended theorem applied to two concrete invocations
with different policy ids, periods, rows and satellite counts but the same
plot and timestamp; both mint the assessment id DA_p1_1000. -/
theorem c3_bundler_determinism_witness :
    (⟨"DA_p1_1000", "p1", "q1", "f1", 993, 1000, 7, "wrow", 0, 10000, 7000⟩ :
        AssessResult).assessmentId =
      (⟨"DA_p1_1000", "p1", "q2", "f2", 986, 1000, 14, "other", 3, 5000, 2000⟩ :
        AssessResult).assessmentId := by
  have hA : calculateDamageAssessment ⟨"p1", "q1", "f1", 7, some 10000, some 7000⟩ 1000
      none ["wrow"] 0 =
      .ok ⟨"DA_p1_1000", "p1", "q1", "f1", 993, 1000, 7, "wrow", 0, 10000, 7000⟩ := by
    rfl
  have hB : calculateDamageAssessment ⟨"p1", "q2", "f2", 14, some 5000, some 2000⟩ 1000
      none ["other"] 3 =
      .ok ⟨"DA_p1_1000", "p1", "q2", "f2", 986, 1000, 14, "other", 3, 5000, 2000⟩ := by
    rfl
  exact (c3_bundler_determinism_amended _ _ 1000 none none _ _ 0 3 _ _ hA hB rfl).1

end Microcrop
namespace Microcrop

/-! ## Composite rule: equivalence with the specification-side rule -/

theorem calculateCompositeStress_eq_spec (droughtSc floodSc heatSc : ℚ) :
    calculateCompositeStress droughtSc floodSc heatSc =
      (compositeSpec droughtSc floodSc heatSc, dominantSpec droughtSc floodSc heatSc) := by
  have hMd : droughtSc ≤ max (max droughtSc floodSc) heatSc :=
    le_trans (le_max_left _ _) (le_max_left _ _)
  have hMf : floodSc ≤ max (max droughtSc floodSc) heatSc :=
    le_trans (le_max_right _ _) (le_max_left _ _)
  have hMh : heatSc ≤ max (max droughtSc floodSc) heatSc := le_max_right _ _
  have cond1_iff : (max (max droughtSc floodSc) heatSc = droughtSc ∧ 3/10 < droughtSc) ↔
      (floodSc ≤ droughtSc ∧ heatSc ≤ droughtSc ∧ 3/10 < droughtSc) := by
    constructor
    · rintro ⟨hMeq, h3⟩
      exact ⟨le_trans hMf hMeq.le, le_trans hMh hMeq.le, h3⟩
    · rintro ⟨h1, h2, h3⟩
      exact ⟨le_antisymm (max_le (max_le le_rfl h1) h2) hMd, h3⟩
  have cond2_iff : ¬(floodSc ≤ droughtSc ∧ heatSc ≤ droughtSc ∧ 3/10 < droughtSc) →
      ((max (max droughtSc floodSc) heatSc = floodSc ∧ 3/10 < floodSc) ↔
        (heatSc ≤ floodSc ∧ 3/10 < floodSc)) := by
    intro hn1
    constructor
    · rintro ⟨hMeq, h3⟩
      exact ⟨le_trans hMh hMeq.le, h3⟩
    · rintro ⟨h1, h3⟩
      refine ⟨?_, h3⟩
      by_cases hdf : droughtSc ≤ floodSc
      · exact le_antisymm (max_le (max_le hdf le_rfl) h1) hMf
      · push_neg at hdf
        exact absurd ⟨hdf.le, h1.trans hdf.le, lt_trans h3 hdf⟩ hn1
  have cond3_iff : ¬(floodSc ≤ droughtSc ∧ heatSc ≤ droughtSc ∧ 3/10 < droughtSc) →
      ¬(heatSc ≤ floodSc ∧ 3/10 < floodSc) →
      ((max (max droughtSc floodSc) heatSc = heatSc ∧ 3/10 < heatSc) ↔ 3/10 < heatSc) := by
    intro hn1 hn2
    constructor
    · rintro ⟨_, h3⟩
      exact h3
    · intro h3
      refine ⟨?_, h3⟩
      have hfh : floodSc < heatSc := by
        by_contra hle
        push_neg at hle
        exact hn2 ⟨hle, lt_of_lt_of_le h3 hle⟩
      have hdh : droughtSc ≤ heatSc := by
        by_contra hlt
        push_neg at hlt
        exact hn1 ⟨hfh.le.trans hlt.le, hlt.le, h3.trans hlt⟩
      exact le_antisymm (max_le (max_le hdh hfh.le) le_rfl) hMh
  unfold calculateCompositeStress compositeSpec dominantSpec
  by_cases hc : droughtSc > 2/5 ∧ heatSc > 2/5
  · rw [if_pos hc, if_pos hc, if_pos hc, mul_one_div]
  · rw [if_neg hc, if_neg hc, if_neg hc]
    refine Prod.ext rfl ?_
    simp only
    by_cases hs1 : floodSc ≤ droughtSc ∧ heatSc ≤ droughtSc ∧ 3/10 < droughtSc
    · rw [if_pos (cond1_iff.mpr hs1), if_pos hs1]
    · rw [if_neg (fun hcode => hs1 (cond1_iff.mp hcode)), if_neg hs1]
      by_cases hs2 : heatSc ≤ floodSc ∧ 3/10 < floodSc
      · rw [if_pos ((cond2_iff hs1).mpr hs2), if_pos hs2]
      · rw [if_neg (fun hcode => hs2 ((cond2_iff hs1).mp hcode)), if_neg hs2]
        by_cases hs3 : 3/10 < heatSc
        · rw [if_pos ((cond3_iff hs1 hs2).mpr hs3), if_pos hs3]
        · rw [if_neg (fun hcode => hs3 ((cond3_iff hs1 hs2).mp hcode)), if_neg hs3]

/-! ## C1: the composite and dominant-stress rule -/

/-- C1 counterexample. The window exWindow under default settings has
drought and heat sub-indices exactly 0.4, so the claim (with its
greater-or-equal threshold) demands composite = min(1, 0.4 + 0.2) = 0.6
and dominant combined; the source compares with strict inequalities and
returns composite 0.4 with dominant drought. -/
theorem c1_composite_rule_counterexample :
    ((calculateWeatherIndices defaultSettings 2 exWindow).map
        (fun I => I.drought.droughtScore)) = some (2/5)
    ∧ ((calculateWeatherIndices defaultSettings 2 exWindow).map
        (fun I => I.heatStress.heatStressScore)) = some (2/5)
    ∧ ((calculateWeatherIndices defaultSettings 2 exWindow).map
        (fun I => I.compositeStressScore)) = some (2/5)
    ∧ ((calculateWeatherIndices defaultSettings 2 exWindow).map
        (fun I => I.dominantStress)) = some "drought"
    ∧ ¬((2 : ℚ)/5 = min 1 (2/5 + (2/5) * (1/2)))
    ∧ "drought" ≠ "combined" := by
  have hmain :
      ((calculateWeatherIndices defaultSettings 2 exWindow).map
          (fun I => I.drought.droughtScore)) = some (2/5)
      ∧ ((calculateWeatherIndices defaultSettings 2 exWindow).map
          (fun I => I.heatStress.heatStressScore)) = some (2/5)
      ∧ ((calculateWeatherIndices defaultSettings 2 exWindow).map
          (fun I => I.compositeStressScore)) = some (2/5)
      ∧ ((calculateWeatherIndices defaultSettings 2 exWindow).map
          (fun I => I.dominantStress)) = some "drought" := by
    simp [calculateWeatherIndices, exWindow, defaultSettings, droughtIndexOf, floodIndexOf,
      heatIndexOf, droughtScore, floodScore, heatStressScore, calculateCompositeStress,
      totalDailyRainfall, sortedDays, dailyRainfall, dailyMaxTemp, listMax,
      consecutiveDryDays, consecutiveWetDays, consecutiveHotDays, daysSinceSignificantRain,
      soilMoistureMean, maxDailyRainfall, maxRainfallIntensity, soilSaturationMax,
      cumulativeRainfall, maxTempOf, avgMaxTempOf, extremeHeatDaysOf, maxRun,
      List.insertionSort, List.orderedInsert, List.findIdx, List.findIdx.go,
      determineDroughtSeverity, determineFloodRisk, determineHeatStressLevel]
    norm_num
  exact ⟨hmain.1, hmain.2.1, hmain.2.2.1, hmain.2.2.2, by norm_num, by decide⟩

/-- C1 amended. For every window the produced composite score and dominant
tag follow the rule with strict thresholds: when drought and heat both
strictly exceed 0.4 the composite is min(1, drought + 0.5 heat) with tag
combined; otherwise the composite is max(drought, flood, heat) and the tag
is the argmax sub-index when that maximum strictly exceeds 0.3 (ties
resolved in the order drought, flood, heat) and none otherwise. -/
theorem c1_composite_rule_amended :
    ∀ (s : WSettings) (nDays : ℕ) (ws : List WeatherData),
      (calculateWeatherIndices s nDays ws).map
          (fun I => (I.compositeStressScore, I.dominantStress)) =
        (calculateWeatherIndices s nDays ws).map
          (fun I => (compositeSpec I.drought.droughtScore I.flood.floodScore
              I.heatStress.heatStressScore,
            dominantSpec I.drought.droughtScore I.flood.floodScore
              I.heatStress.heatStressScore)) := by
  intro s nDays ws
  unfold calculateWeatherIndices
  by_cases he : ws.isEmpty
  · rw [if_pos he]
    rfl
  · rw [if_neg he]
    simp only [Option.map_some']
    rw [calculateCompositeStress_eq_spec]

/-! ## C2: sub-index and composite bounds, severity labels -/

theorem droughtScore_bounds (s : WSettings) (deficit : ℚ) (cd dsr : ℕ) (sm : Option ℚ) :
    0 ≤ droughtScore s deficit cd dsr sm ∧ droughtScore s deficit cd dsr sm ≤ 1 := by
  unfold droughtScore
  refine ⟨le_min (by norm_num) ?_, min_le_left _ _⟩
  have h1 : (0:ℚ) ≤ if deficit > 0 then min (2/5) (deficit / 100) else 0 := by
    split_ifs with h
    · exact le_min (by norm_num) (div_nonneg h.le (by norm_num))
    · exact le_refl 0
  have h2 : (0:ℚ) ≤ if cd ≥ s.droughtSevereDays then
      min (3/10) (((cd - s.droughtSevereDays : ℕ) : ℚ) / 20) else 0 := by
    split_ifs with h
    · exact le_min (by norm_num) (div_nonneg (Nat.cast_nonneg _) (by norm_num))
    · exact le_refl 0
  have h3 : (0:ℚ) ≤ min (1/5) ((dsr : ℚ) / 30) :=
    le_min (by norm_num) (div_nonneg (Nat.cast_nonneg _) (by norm_num))
  have h4 : (0:ℚ) ≤ match sm with
      | some m => if m < 30 then (1:ℚ)/10 else if m < 50 then 1/20 else 0
      | none => 0 := by
    rcases sm with _ | m
    · exact le_refl 0
    · simp only
      split_ifs <;> norm_num
  linarith

theorem floodScore_bounds (s : WSettings) (maxDaily cum3 maxIntensity : ℚ)
    (wet : ℕ) (sat : Option ℚ) :
    0 ≤ floodScore s maxDaily cum3 maxIntensity wet sat
    ∧ floodScore s maxDaily cum3 maxIntensity wet sat ≤ 1 := by
  unfold floodScore
  refine ⟨le_min (by norm_num) ?_, min_le_left _ _⟩
  have h1 : (0:ℚ) ≤ if maxDaily > s.floodThresholdMM then
      min (3/10) ((maxDaily - s.floodThresholdMM) / 100) else 0 := by
    split_ifs with h
    · exact le_min (by norm_num) (div_nonneg (by linarith) (by norm_num))
    · exact le_refl 0
  have h2 : (0:ℚ) ≤ if cum3 > 100 then min (3/10) ((cum3 - 100) / 200) else 0 := by
    split_ifs with h
    · exact le_min (by norm_num) (div_nonneg (by linarith) (by norm_num))
    · exact le_refl 0
  have h3 : (0:ℚ) ≤ if maxIntensity > s.floodSevereMM then
      min (1/5) ((maxIntensity - s.floodSevereMM) / 20) else 0 := by
    split_ifs with h
    · exact le_min (by norm_num) (div_nonneg (by linarith) (by norm_num))
    · exact le_refl 0
  have h4 : (0:ℚ) ≤ if wet ≥ 5 then min (1/10) ((wet : ℚ) / 10) else 0 := by
    split_ifs with h
    · exact le_min (by norm_num) (div_nonneg (Nat.cast_nonneg _) (by norm_num))
    · exact le_refl 0
  have h5 : (0:ℚ) ≤ match sat with
      | some v => if v > 90 then (1:ℚ)/10 else 0
      | none => 0 := by
    rcases sat with _ | v
    · exact le_refl 0
    · simp only
      split_ifs <;> norm_num
  linarith

theorem heatStressScore_bounds (s : WSettings) (maxTemp avgMaxTemp : ℚ)
    (hot extreme : ℕ) :
    0 ≤ heatStressScore s maxTemp avgMaxTemp hot extreme
    ∧ heatStressScore s maxTemp avgMaxTemp hot extreme ≤ 1 := by
  unfold heatStressScore
  refine ⟨le_min (by norm_num) ?_, min_le_left _ _⟩
  have h1 : (0:ℚ) ≤ if maxTemp > s.heatThresholdCelsius then
      min (3/10) ((maxTemp - s.heatThresholdCelsius) / 15) else 0 := by
    split_ifs with h
    · exact le_min (by norm_num) (div_nonneg (by linarith) (by norm_num))
    · exact le_refl 0
  have h2 : (0:ℚ) ≤ if avgMaxTemp > 30 then min (1/5) ((avgMaxTemp - 30) / 10) else 0 := by
    split_ifs with h
    · exact le_min (by norm_num) (div_nonneg (by linarith) (by norm_num))
    · exact le_refl 0
  have h3 : (0:ℚ) ≤ if hot ≥ s.heatDaysThreshold then
      min (3/10) (((hot - s.heatDaysThreshold : ℕ) : ℚ) / 10) else 0 := by
    split_ifs with h
    · exact le_min (by norm_num) (div_nonneg (Nat.cast_nonneg _) (by norm_num))
    · exact le_refl 0
  have h4 : (0:ℚ) ≤ if extreme > 0 then min (1/5) ((extreme : ℚ) / 5) else 0 := by
    split_ifs with h
    · exact le_min (by norm_num) (div_nonneg (Nat.cast_nonneg _) (by norm_num))
    · exact le_refl 0
  linarith

theorem compositeStress_fst_bounds (d f h : ℚ) (hd0 : 0 ≤ d) (hd1 : d ≤ 1)
    (_hf0 : 0 ≤ f) (hf1 : f ≤ 1) (_hh0 : 0 ≤ h) (hh1 : h ≤ 1) :
    0 ≤ (calculateCompositeStress d f h).1 ∧ (calculateCompositeStress d f h).1 ≤ 1 := by
  unfold calculateCompositeStress
  by_cases hc : d > 2/5 ∧ h > 2/5
  · rw [if_pos hc]
    exact ⟨le_min (by norm_num) (by nlinarith), min_le_left _ _⟩
  · rw [if_neg hc]
    exact ⟨le_trans hd0 (le_trans (le_max_left d f) (le_max_left _ h)),
      max_le (max_le hd1 hf1) hh1⟩

/-- C2. For every window: an index is produced exactly on nonempty sample
lists; when produced, the drought, flood and heat sub-index scores and the
composite score all lie in [0, 1] and each severity label is the label
function applied to that sub-index score; the label functions realise the
0.2 / 0.4 / 0.6 / 0.8 step mapping onto their five levels. -/
theorem c2_index_bounds :
    (∀ (s : WSettings) (nDays : ℕ) (ws : List WeatherData),
      (calculateWeatherIndices s nDays ws).isSome = !ws.isEmpty
      ∧ (calculateWeatherIndices s nDays ws).elim True (fun I =>
          (0 ≤ I.drought.droughtScore ∧ I.drought.droughtScore ≤ 1)
          ∧ (0 ≤ I.flood.floodScore ∧ I.flood.floodScore ≤ 1)
          ∧ (0 ≤ I.heatStress.heatStressScore ∧ I.heatStress.heatStressScore ≤ 1)
          ∧ (0 ≤ I.compositeStressScore ∧ I.compositeStressScore ≤ 1)
          ∧ I.drought.severityLevel = determineDroughtSeverity I.drought.droughtScore
          ∧ I.flood.riskLevel = determineFloodRisk I.flood.floodScore
          ∧ I.heatStress.stressLevel = determineHeatStressLevel I.heatStress.heatStressScore))
    ∧ (∀ q : ℚ, q < 1/5 → determineDroughtSeverity q = "none"
        ∧ determineFloodRisk q = "none" ∧ determineHeatStressLevel q = "none")
    ∧ (∀ q : ℚ, 1/5 ≤ q → q < 2/5 → determineDroughtSeverity q = "mild"
        ∧ determineFloodRisk q = "low" ∧ determineHeatStressLevel q = "mild")
    ∧ (∀ q : ℚ, 2/5 ≤ q → q < 3/5 → determineDroughtSeverity q = "moderate"
        ∧ determineFloodRisk q = "moderate" ∧ determineHeatStressLevel q = "moderate")
    ∧ (∀ q : ℚ, 3/5 ≤ q → q < 4/5 → determineDroughtSeverity q = "severe"
        ∧ determineFloodRisk q = "high" ∧ determineHeatStressLevel q = "severe")
    ∧ (∀ q : ℚ, 4/5 ≤ q → determineDroughtSeverity q = "extreme"
        ∧ determineFloodRisk q = "critical" ∧ determineHeatStressLevel q = "extreme") := by
  refine ⟨?_, ?_, ?_, ?_, ?_, ?_⟩
  · intro s nDays ws
    constructor
    · unfold calculateWeatherIndices
      by_cases he : ws.isEmpty <;> simp [he]
    · unfold calculateWeatherIndices
      by_cases he : ws.isEmpty
      · rw [if_pos he]
        exact trivial
      · rw [if_neg he]
        refine ⟨droughtScore_bounds _ _ _ _ _, floodScore_bounds _ _ _ _ _ _,
          heatStressScore_bounds _ _ _ _ _, ?_, rfl, rfl, rfl⟩
        exact compositeStress_fst_bounds _ _ _
          (droughtScore_bounds _ _ _ _ _).1 (droughtScore_bounds _ _ _ _ _).2
          (floodScore_bounds _ _ _ _ _ _).1 (floodScore_bounds _ _ _ _ _ _).2
          (heatStressScore_bounds _ _ _ _ _).1 (heatStressScore_bounds _ _ _ _ _).2
  · intro q h1
    unfold determineDroughtSeverity determineFloodRisk determineHeatStressLevel
    split_ifs <;> first
      | exact ⟨rfl, rfl, rfl⟩
      | (exfalso; linarith)
  · intro q h1 h2
    unfold determineDroughtSeverity determineFloodRisk determineHeatStressLevel
    split_ifs <;> first
      | exact ⟨rfl, rfl, rfl⟩
      | (exfalso; linarith)
  · intro q h1 h2
    unfold determineDroughtSeverity determineFloodRisk determineHeatStressLevel
    split_ifs <;> first
      | exact ⟨rfl, rfl, rfl⟩
      | (exfalso; linarith)
  · intro q h1 h2
    unfold determineDroughtSeverity determineFloodRisk determineHeatStressLevel
    split_ifs <;> first
      | exact ⟨rfl, rfl, rfl⟩
      | (exfalso; linarith)
  · intro q h1
    unfold determineDroughtSeverity determineFloodRisk determineHeatStressLevel
    split_ifs <;> first
      | exact ⟨rfl, rfl, rfl⟩
      | (exfalso; linarith)

/-- C2 witness: the bounds instantiated on a concrete window and the step
mapping instantiated at concrete scores in each band. -/
theorem c2_index_bounds_witness :
    (calculateWeatherIndices defaultSettings 2 exWindow).isSome = !exWindow.isEmpty
    ∧ determineDroughtSeverity (1/10) = "none"
    ∧ determineFloodRisk (3/10) = "low"
    ∧ determineHeatStressLevel (1/2) = "moderate"
    ∧ determineDroughtSeverity (7/10) = "severe"
    ∧ determineFloodRisk (9/10) = "critical" := by
  refine ⟨(c2_index_bounds.1 defaultSettings 2 exWindow).1,
    (c2_index_bounds.2.1 (1/10) (by norm_num)).1,
    (c2_index_bounds.2.2.1 (3/10) (by norm_num) (by norm_num)).2.1,
    (c2_index_bounds.2.2.2.1 (1/2) (by norm_num) (by norm_num)).2.2,
    (c2_index_bounds.2.2.2.2.1 (7/10) (by norm_num) (by norm_num)).1,
    (c2_index_bounds.2.2.2.2.2 (9/10) (by norm_num)).2.1⟩

end Microcrop
namespace Microcrop

/-! ## C5: the biomass reducer -/

/-- C5. Whenever the reducer succeeds it has sorted the delivered samples
ascending by date (a sorted permutation of the input) and returns: current
= the last value of the sorted series, min and max = the minimum and
maximum over all values, baseline = the mean of the first min(5, n)
values, trend = clamp(10 slope, -1, +1) with the closed-form regression
slope (0 when n = 1), and deviation percent = (baseline - current) /
baseline x 100. On the concrete five-value series 0.80, 0.78, 0.76, 0.70,
0.60 it returns current 0.60, baseline 0.728, a negative trend, and
deviation 1600/91, within 0.1 of 17.6. -/
theorem c5_biomass_reducer :
    (∀ (points : List BiomassPoint) (st : BiomassStats),
      reduceBiomass points = .ok st →
      List.Sorted (fun a b : BiomassPoint => a.date ≤ b.date) (sortByDate points)
      ∧ (sortByDate points).Perm points
      ∧ st.currentBiomass = ((sortByDate points).map (·.biomassProxy)).getLastD 0
      ∧ (st.minBiomass ∈ (sortByDate points).map (·.biomassProxy)
          ∧ ∀ v ∈ (sortByDate points).map (·.biomassProxy), st.minBiomass ≤ v)
      ∧ (st.maxBiomass ∈ (sortByDate points).map (·.biomassProxy)
          ∧ ∀ v ∈ (sortByDate points).map (·.biomassProxy), v ≤ st.maxBiomass)
      ∧ st.baselineBiomass =
          (((sortByDate points).map (·.biomassProxy)).take (min 5 points.length)).sum
            / ((min 5 points.length : ℕ) : ℚ)
      ∧ st.biomassTrend =
          (if 1 < points.length then
            max (-1) (min 1 (biomassSlope ((sortByDate points).map (·.biomassProxy)) * 10))
          else 0)
      ∧ st.deviationPercent =
          (st.baselineBiomass - st.currentBiomass) / st.baselineBiomass * 100)
    ∧ (reduceBiomass exBiomass =
        .ok ⟨3/5, 91/125, 3/5, 4/5, -12/25, 1600/91, 4, "high"⟩
      ∧ (-12/25 : ℚ) < 0
      ∧ |(1600/91 : ℚ) - 88/5| < 1/10) := by
  constructor
  · intro points st hok
    haveI hTot : IsTotal BiomassPoint (fun a b => a.date ≤ b.date) :=
      ⟨fun a b => Nat.le_total a.date b.date⟩
    haveI hTrans : IsTrans BiomassPoint (fun a b => a.date ≤ b.date) :=
      ⟨fun a b c hab hbc => Nat.le_trans hab hbc⟩
    have hsorted : List.Sorted (fun a b : BiomassPoint => a.date ≤ b.date)
        (sortByDate points) :=
      List.sorted_insertionSort _ points
    have hperm : (sortByDate points).Perm points :=
      List.perm_insertionSort _ points
    have hlen : (sortByDate points).length = points.length := hperm.length_eq
    cases hsp : sortByDate points with
    | nil =>
      unfold reduceBiomass at hok
      rw [hsp] at hok
      cases hok
    | cons p ps =>
      unfold reduceBiomass at hok
      rw [hsp] at hok
      rw [hsp] at hlen
      dsimp only at hok
      simp only [List.length_map] at hok
      rw [hsp] at hsorted hperm
      split_ifs at hok with hbz htr hq1 hq2 hq3 hq4
      all_goals
        first
        | (have hst := (Except.ok.injEq _ _).mp hok
           subst hst
           refine ⟨hsorted, hperm, rfl,
             ⟨listMin_mem _ (by simp), fun v hv => listMin_le _ v hv⟩,
             ⟨listMax_mem _ (by simp), fun v hv => le_listMax _ v hv⟩, ?_, ?_, rfl⟩ <;>
             simp only [List.length_map, ← hlen] <;>
             (try rfl) <;>
             (try (split_ifs with ht <;> first | rfl | omega)))
        | exact Except.noConfusion hok
  · refine ⟨?_, by norm_num, ?_⟩
    · simp [reduceBiomass, exBiomass, sortByDate, List.insertionSort, List.orderedInsert,
        listMin, listMax, biomassSlope, pointQuality, qualityScoreOf, List.range,
        List.range.loop]
      norm_num
    · rw [show (1600/91 : ℚ) - 88/5 = -(8/455) by norm_num, abs_neg,
        abs_of_nonneg (by norm_num)]
      norm_num

/-- C5 witness: the reducer theorem applied at the concrete five-value
series of the specification scenario. -/
theorem c5_biomass_reducer_witness :
    List.Sorted (fun a b : BiomassPoint => a.date ≤ b.date) (sortByDate exBiomass)
    ∧ ((3:ℚ)/5) = ((sortByDate exBiomass).map (·.biomassProxy)).getLastD 0 := by
  have h := c5_biomass_reducer
  have hc := h.1 exBiomass ⟨3/5, 91/125, 3/5, 4/5, -12/25, 1600/91, 4, "high"⟩ h.2.1
  exact ⟨hc.1, hc.2.2.1⟩

end Microcrop
namespace Microcrop

/-! ## C7: subscription status monotonicity -/

theorem eventRecordFn_rank_mono (e : SubEvent) (r : SubRecord) :
    r.status.rank ≤ ((eventRecordFn e r).status).rank := by
  have hr2 : r.status.rank ≤ 2 := by cases r.status <;> simp [SubStatus.rank]
  cases e with
  | statusSweep now f =>
    simp only [eventRecordFn]
    unfold statusSweepRecord
    split_ifs
    · exact hr2
    · exact le_refl _
  | cancelSweep now u =>
    simp only [eventRecordFn]
    unfold cancelSweepRecord
    split_ifs
    · exact hr2
    · exact le_refl _
  | cancelCmd i ok =>
    simp only [eventRecordFn]
    unfold cancelCommandRecord
    split_ifs
    · exact hr2
    · exact le_refl _

theorem applyEvent_subs (e : SubEvent) (db : SubDB) :
    (applyEvent e db).subs = db.subs.map (eventRecordFn e) := by
  cases e <;> rfl

theorem applyEvent_rank_mono (e : SubEvent) (db : SubDB) (i : ℕ) :
    ((db.subs.getD i ⟨0, .requested, 0⟩).status).rank ≤
      (((applyEvent e db).subs.getD i ⟨0, .requested, 0⟩).status).rank := by
  rw [applyEvent_subs]
  rw [List.getD_eq_getElem?_getD, List.getD_eq_getElem?_getD, List.getElem?_map]
  rcases h : db.subs[i]? with _ | r
  · simp [h]
  · simp only [h, Option.map_some', Option.getD_some]
    exact eventRecordFn_rank_mono e r

/-- C7. For every sequence of status-update events (status sweeps, end-date
sweeps and explicit cancel commands) each stored record only moves toward a
terminal state: its rank (requested 0, active 1, terminal 2) never
decreases; and re-running either sweep on a record already in a terminal
state leaves that record exactly unchanged. -/
theorem c7_subscription_monotonicity :
    (∀ (evs : List SubEvent) (db : SubDB) (i : ℕ),
      ((db.subs.getD i ⟨0, SubStatus.requested, 0⟩).status).rank ≤
        (((applyEvents evs db).subs.getD i ⟨0, SubStatus.requested, 0⟩).status).rank)
    ∧ (∀ (now : ℕ) (fetchOk : ℕ → Bool) (r : SubRecord), r.status.isTerminal = true →
        statusSweepRecord now fetchOk r = r)
    ∧ (∀ (now : ℕ) (upstream : ℕ → UpstreamResult) (r : SubRecord),
        r.status.isTerminal = true → cancelSweepRecord now upstream r = r) := by
  refine ⟨?_, ?_, ?_⟩
  · intro evs
    induction evs with
    | nil => intro db i; exact le_refl _
    | cons e evs ih =>
      intro db i
      have h1 := applyEvent_rank_mono e db i
      have h2 := ih (applyEvent e db) i
      have hstep : applyEvents (e :: evs) db = applyEvents evs (applyEvent e db) := rfl
      rw [hstep]
      exact le_trans h1 h2
  · intro now fetchOk r hterm
    unfold statusSweepRecord
    have hact : ¬ r.status = SubStatus.active := by
      intro hs
      rw [hs] at hterm
      cases hterm
    rw [if_neg (by intro hcon; exact hact hcon.1)]
  · intro now upstream r hterm
    unfold cancelSweepRecord
    have hact : r.status ≠ SubStatus.active := by
      intro hs
      rw [hs] at hterm
      cases hterm
    have hhit : cancelSweepHits now upstream r = false := by
      unfold cancelSweepHits
      simp [hact]
    rw [hhit]
    simp

/-- C7 witness: the monotonicity applied to a concrete event sequence on a
one-row table, and the no-op facts applied to a concrete expired record. -/
theorem c7_subscription_monotonicity_witness :
    ((SubDB.mk [⟨1, SubStatus.active, 5⟩] []).subs.getD 0
        ⟨0, SubStatus.requested, 0⟩).status.rank ≤
      (((applyEvents [SubEvent.cancelSweep 10 (fun _ => UpstreamResult.ok)]
          (SubDB.mk [⟨1, SubStatus.active, 5⟩] [])).subs.getD 0
        ⟨0, SubStatus.requested, 0⟩).status).rank
    ∧ statusSweepRecord 10 (fun _ => true) ⟨1, SubStatus.expired, 5⟩ =
        ⟨1, SubStatus.expired, 5⟩
    ∧ cancelSweepRecord 10 (fun _ => UpstreamResult.ok) ⟨1, SubStatus.expired, 5⟩ =
        ⟨1, SubStatus.expired, 5⟩ := by
  exact ⟨c7_subscription_monotonicity.1
      [SubEvent.cancelSweep 10 (fun _ => UpstreamResult.ok)]
      (SubDB.mk [⟨1, SubStatus.active, 5⟩] []) 0,
    c7_subscription_monotonicity.2.1 10 (fun _ => true) ⟨1, SubStatus.expired, 5⟩ rfl,
    c7_subscription_monotonicity.2.2 10 (fun _ => UpstreamResult.ok)
      ⟨1, SubStatus.expired, 5⟩ rfl⟩

end Microcrop
namespace Microcrop

/-! ## C8: cumulative k-day rainfall maxima -/

theorem dailyRainfall_nonneg (ws : List WeatherData) (hrain : ∀ w ∈ ws, 0 ≤ w.rainfall)
    (d : ℕ) : 0 ≤ dailyRainfall ws d := by
  unfold dailyRainfall
  apply List.sum_nonneg
  intro x hx
  rcases List.mem_map.mp hx with ⟨w2, hw2, hval⟩
  rw [← hval]
  exact hrain w2 (List.mem_of_mem_filter hw2)

/-- C8. Under nonnegative per-sample rainfall (the validated domain of the
StationSample model): when at least k distinct days are present the
cumulative-rainfall value is the maximum over all k-window sums of daily
rainfall over the ascending day list (it is one of the window sums and
bounds them all); with fewer than k distinct days it is the whole-period
sum of daily rainfall. -/
theorem c8_cumulative_rainfall :
    ∀ (ws : List WeatherData) (k : ℕ), 0 < k → (∀ w ∈ ws, 0 ≤ w.rainfall) →
      (((sortedDays ws).length < k → cumulativeRainfall ws k = totalDailyRainfall ws)
      ∧ (k ≤ (sortedDays ws).length →
          cumulativeRainfall ws k ∈ windowSums ws k
          ∧ ∀ x ∈ windowSums ws k, x ≤ cumulativeRainfall ws k)) := by
  intro ws k hk hrain
  constructor
  · intro hlt
    unfold cumulativeRainfall
    rw [if_pos hlt]
  · intro hge
    have hnlt : ¬ (sortedDays ws).length < k := not_lt.mpr hge
    have hcum : cumulativeRainfall ws k = (windowSums ws k).foldl max 0 := by
      unfold cumulativeRainfall windowSums
      rw [if_neg hnlt]
    have hlen : (windowSums ws k).length = (sortedDays ws).length - k + 1 := by
      unfold windowSums
      rw [List.length_map, List.length_range]
    have hpos : ∀ x ∈ windowSums ws k, 0 ≤ x := by
      intro x hx
      unfold windowSums at hx
      rcases List.mem_map.mp hx with ⟨i, _, hval⟩
      rw [← hval]
      apply List.sum_nonneg
      intro y hy
      rcases List.mem_map.mp hy with ⟨d, _, hdval⟩
      rw [← hdval]
      exact dailyRainfall_nonneg ws hrain d
    have hne : windowSums ws k ≠ [] := by
      intro hnil
      rw [hnil] at hlen
      simp at hlen
    rw [hcum]
    constructor
    · rcases foldl_max_mem (windowSums ws k) 0 with hz | hmem
      · cases hws : windowSums ws k with
        | nil => exact absurd hws hne
        | cons y ys =>
          rw [hws] at hz hpos
          have hy0 : 0 ≤ y := hpos y (List.mem_cons_self y ys)
          have hyle : y ≤ List.foldl max 0 (y :: ys) :=
            le_foldl_max _ _ _ (List.mem_cons_self y ys)
          rw [hz] at hyle
          have hy : y = (0:ℚ) := le_antisymm hyle hy0
          rw [hz, ← hy]
          exact List.mem_cons_self y ys
      · exact hmem
    · intro x hx
      exact le_foldl_max _ _ _ hx

/-- C8 witness: the theorem applied at k = 3 on the two-day example window
(fewer than 3 days, whole-period sum) and at k = 1 (window maxima). -/
theorem c8_cumulative_rainfall_witness :
    cumulativeRainfall exWindow 3 = totalDailyRainfall exWindow
    ∧ cumulativeRainfall exWindow 1 ∈ windowSums exWindow 1 := by
  constructor
  · refine (c8_cumulative_rainfall exWindow 3 (by norm_num)
      (fun w hw => ?_)).1 (by decide)
    · fin_cases hw <;> norm_num [exWindow]
  · refine ((c8_cumulative_rainfall exWindow 1 (by norm_num)
      (fun w hw => ?_)).2 (by decide)).1
    · fin_cases hw <;> norm_num [exWindow]

end Microcrop
namespace Microcrop

/-! ## C9: heat sub-index monotonicity in a hotter sample -/

theorem foldl_max_map_mono (f g : ℕ → ℚ) :
    ∀ (l : List ℕ) (a b : ℚ), (∀ d ∈ l, f d ≤ g d) → a ≤ b →
      (l.map f).foldl max a ≤ (l.map g).foldl max b := by
  intro l
  induction l with
  | nil =>
    intro a b _ hab
    exact hab
  | cons x xs ih =>
    intro a b hfg hab
    simp only [List.map_cons, List.foldl_cons]
    exact ih (max a (f x)) (max b (g x))
      (fun d hd => hfg d (List.mem_cons_of_mem x hd))
      (max_le_max hab (hfg x (List.mem_cons_self x xs)))

theorem listMax_map_mono (l : List ℕ) (f g : ℕ → ℚ) (hfg : ∀ d ∈ l, f d ≤ g d) :
    listMax (l.map f) ≤ listMax (l.map g) := by
  cases l with
  | nil => exact le_refl _
  | cons x xs =>
    simp only [List.map_cons, listMax]
    exact foldl_max_map_mono f g xs (f x) (g x)
      (fun d hd => hfg d (List.mem_cons_of_mem x hd)) (hfg x (List.mem_cons_self x xs))

theorem maxRun_go_mono (p : ℚ → Bool) (f g : ℕ → ℚ) :
    ∀ (l : List ℕ),
      (∀ d ∈ l, p (f d) = true → p (g d) = true) →
      ∀ (st st2 : ℕ × ℕ), st.1 ≤ st2.1 → st.2 ≤ st2.2 →
      ((l.map f).foldl
          (fun st v => if p v then (st.1 + 1, max st.2 (st.1 + 1)) else (0, st.2)) st).1 ≤
        ((l.map g).foldl
          (fun st v => if p v then (st.1 + 1, max st.2 (st.1 + 1)) else (0, st.2)) st2).1
      ∧ ((l.map f).foldl
          (fun st v => if p v then (st.1 + 1, max st.2 (st.1 + 1)) else (0, st.2)) st).2 ≤
        ((l.map g).foldl
          (fun st v => if p v then (st.1 + 1, max st.2 (st.1 + 1)) else (0, st.2)) st2).2 := by
  intro l
  induction l with
  | nil =>
    intro _ st st2 h1 h2
    exact ⟨h1, h2⟩
  | cons x xs ih =>
    intro hfg st st2 h1 h2
    simp only [List.map_cons, List.foldl_cons]
    by_cases hx : p (f x) = true
    · have hgx := hfg x (List.mem_cons_self x xs) hx
      rw [if_pos hx, if_pos hgx]
      exact ih (fun d hd hp => hfg d (List.mem_cons_of_mem x hd) hp)
        (st.1 + 1, max st.2 (st.1 + 1)) (st2.1 + 1, max st2.2 (st2.1 + 1))
        (Nat.succ_le_succ h1) (max_le_max h2 (Nat.succ_le_succ h1))
    · rw [if_neg hx]
      by_cases hgx : p (g x) = true
      · rw [if_pos hgx]
        exact ih (fun d hd hp => hfg d (List.mem_cons_of_mem x hd) hp)
          (0, st.2) (st2.1 + 1, max st2.2 (st2.1 + 1))
          (Nat.zero_le _) (le_trans h2 (le_max_left _ _))
      · rw [if_neg hgx]
        exact ih (fun d hd hp => hfg d (List.mem_cons_of_mem x hd) hp)
          (0, st.2) (0, st2.2) (le_refl 0) h2

theorem maxRun_map_mono (p : ℚ → Bool) (l : List ℕ) (f g : ℕ → ℚ)
    (hfg : ∀ d ∈ l, p (f d) = true → p (g d) = true) :
    maxRun p (l.map f) ≤ maxRun p (l.map g) := by
  unfold maxRun
  exact (maxRun_go_mono p f g l hfg (0, 0) (0, 0) (le_refl 0) (le_refl 0)).2

theorem countP_map_mono (p : ℚ → Bool) (f g : ℕ → ℚ) :
    ∀ l : List ℕ,
      (∀ d ∈ l, p (f d) = true → p (g d) = true) →
      (l.map f).countP p ≤ (l.map g).countP p := by
  intro l
  induction l with
  | nil =>
    intro _
    exact le_refl _
  | cons x xs ih =>
    intro hfg
    simp only [List.map_cons, List.countP_cons]
    have hih := ih (fun d hd hp => hfg d (List.mem_cons_of_mem x hd) hp)
    by_cases hfx : p (f x) = true
    · rw [if_pos hfx, if_pos (hfg x (List.mem_cons_self x xs) hfx)]
      exact Nat.add_le_add hih (le_refl 1)
    · rw [if_neg hfx]
      split_ifs
      · exact le_trans (Nat.add_le_add hih (Nat.zero_le 1)) (le_refl _)
      · simpa using hih

theorem heatStressScore_mono (s : WSettings) (mt mt2 avg avg2 : ℚ)
    (hot hot2 ext ext2 : ℕ) (h1 : mt ≤ mt2) (h2 : avg ≤ avg2) (h3 : hot ≤ hot2)
    (h4 : ext ≤ ext2) :
    heatStressScore s mt avg hot ext ≤ heatStressScore s mt2 avg2 hot2 ext2 := by
  unfold heatStressScore
  have c1 : (if mt > s.heatThresholdCelsius then
        min (3/10) ((mt - s.heatThresholdCelsius) / 15) else 0) ≤
      (if mt2 > s.heatThresholdCelsius then
        min (3/10) ((mt2 - s.heatThresholdCelsius) / 15) else 0) := by
    split_ifs with ha hb
    · exact min_le_min (le_refl _)
        ((div_le_div_right (by norm_num)).mpr (sub_le_sub_right h1 _))
    · exact absurd (lt_of_lt_of_le ha h1) hb
    · exact le_min (by norm_num) (div_nonneg (by linarith) (by norm_num))
    · exact le_refl 0
  have c2 : (if avg > 30 then min (1/5) ((avg - 30) / 10) else 0) ≤
      (if avg2 > 30 then min (1/5) ((avg2 - 30) / 10) else 0) := by
    split_ifs with ha hb
    · exact min_le_min (le_refl _)
        ((div_le_div_right (by norm_num)).mpr (sub_le_sub_right h2 _))
    · exact absurd (lt_of_lt_of_le ha h2) hb
    · exact le_min (by norm_num) (div_nonneg (by linarith) (by norm_num))
    · exact le_refl 0
  have c3 : (if hot ≥ s.heatDaysThreshold then
        min (3/10) (((hot - s.heatDaysThreshold : ℕ) : ℚ) / 10) else 0) ≤
      (if hot2 ≥ s.heatDaysThreshold then
        min (3/10) (((hot2 - s.heatDaysThreshold : ℕ) : ℚ) / 10) else 0) := by
    split_ifs with ha hb
    · refine min_le_min (le_refl _) ((div_le_div_right (by norm_num)).mpr ?_)
      exact_mod_cast Nat.sub_le_sub_right h3 _
    · exact absurd (le_trans ha h3) hb
    · exact le_min (by norm_num) (div_nonneg (Nat.cast_nonneg _) (by norm_num))
    · exact le_refl 0
  have c4 : (if ext > 0 then min (1/5) ((ext : ℚ) / 5) else 0) ≤
      (if ext2 > 0 then min (1/5) ((ext2 : ℚ) / 5) else 0) := by
    split_ifs with ha hb
    · refine min_le_min (le_refl _) ((div_le_div_right (by norm_num)).mpr ?_)
      exact_mod_cast h4
    · exact absurd (lt_of_lt_of_le ha h4) hb
    · exact le_min (by norm_num) (div_nonneg (Nat.cast_nonneg _) (by norm_num))
    · exact le_refl 0
  exact min_le_min (le_refl 1) (by linarith)

theorem mem_sortedDays_iff (ws : List WeatherData) (d : ℕ) :
    d ∈ sortedDays ws ↔ d ∈ ws.map (·.day) := by
  unfold sortedDays
  rw [(List.perm_insertionSort _ _).mem_iff]
  exact List.mem_dedup

theorem filter_day_ne_nil (ws : List WeatherData) (d : ℕ) (h : d ∈ sortedDays ws) :
    ws.filter (fun w2 => w2.day == d) ≠ [] := by
  have h3 : d ∈ ws.map (·.day) := (mem_sortedDays_iff ws d).mp h
  rcases List.mem_map.mp h3 with ⟨w2, hw2, hd⟩
  intro hnil
  have hmem : w2 ∈ ws.filter (fun x => x.day == d) :=
    List.mem_filter.mpr ⟨hw2, by simp [hd]⟩
  rw [hnil] at hmem
  cases hmem

theorem sortedDays_cons_of_mem (w : WeatherData) (ws : List WeatherData)
    (h : w.day ∈ ws.map (·.day)) : sortedDays (w :: ws) = sortedDays ws := by
  unfold sortedDays
  simp only [List.map_cons]
  rw [List.dedup_cons_of_mem h]

theorem dailyMaxTemp_cons_le (w : WeatherData) (ws : List WeatherData) (d : ℕ)
    (hne : ws.filter (fun w2 => w2.day == d) ≠ []) :
    dailyMaxTemp ws d ≤ dailyMaxTemp (w :: ws) d := by
  unfold dailyMaxTemp
  rw [List.filter_cons]
  by_cases hd : (w.day == d) = true
  · rw [if_pos hd]
    cases hf : ws.filter (fun w2 => w2.day == d) with
    | nil => exact absurd hf hne
    | cons t ts =>
      simp only [List.map_cons, listMax]
      exact foldl_max_mono_init _ _ _ (le_max_right w.temperature t.temperature)
  · rw [if_neg hd]

/-- C9. Adding one sample whose day already occurs in the window and whose
temperature strictly exceeds that day's current daily maximum never
decreases the heat sub-index: the day set is unchanged, every daily
maximum is pointwise at least its old value, and the heat-stress score is
monotone in its four inputs (maximum temperature, average daily maximum,
longest hot run, extreme-heat day count). -/
theorem c9_heat_monotonicity :
    ∀ (s : WSettings) (ws : List WeatherData) (w : WeatherData),
      w.day ∈ ws.map (·.day) →
      dailyMaxTemp ws w.day < w.temperature →
      (heatIndexOf s ws).heatStressScore ≤ (heatIndexOf s (w :: ws)).heatStressScore := by
  intro s ws w hmem _hlt
  have hdays : sortedDays (w :: ws) = sortedDays ws := sortedDays_cons_of_mem w ws hmem
  have hpt : ∀ d ∈ sortedDays ws, dailyMaxTemp ws d ≤ dailyMaxTemp (w :: ws) d := by
    intro d hd
    exact dailyMaxTemp_cons_le w ws d (filter_day_ne_nil ws d hd)
  have h1 : maxTempOf ws ≤ maxTempOf (w :: ws) := by
    unfold maxTempOf
    rw [hdays]
    exact listMax_map_mono _ _ _ hpt
  have h2 : avgMaxTempOf ws ≤ avgMaxTempOf (w :: ws) := by
    unfold avgMaxTempOf
    rw [hdays]
    cases hsd : sortedDays ws with
    | nil => exact le_refl _
    | cons d ds =>
      rw [hsd] at hpt
      have hsum : (List.map (dailyMaxTemp ws) (d :: ds)).sum ≤
          (List.map (dailyMaxTemp (w :: ws)) (d :: ds)).sum :=
        List.sum_le_sum hpt
      have hne2 : ¬ ((d :: ds).map (dailyMaxTemp ws)).isEmpty = true := by simp
      have hne3 : ¬ ((d :: ds).map (dailyMaxTemp (w :: ws))).isEmpty = true := by simp
      rw [if_neg hne2, if_neg hne3]
      have hlen2 : ((d :: ds).map (dailyMaxTemp ws)).length =
          ((d :: ds).map (dailyMaxTemp (w :: ws))).length := by
        simp
      rw [hlen2]
      have hlenpos : (0:ℚ) < (((d :: ds).map (dailyMaxTemp (w :: ws))).length : ℚ) := by
        simp only [List.length_map, List.length_cons]
        exact_mod_cast Nat.succ_pos ds.length
      exact (div_le_div_right hlenpos).mpr hsum
  have h3 : consecutiveHotDays ws 35 ≤ consecutiveHotDays (w :: ws) 35 := by
    unfold consecutiveHotDays
    rw [hdays]
    refine maxRun_map_mono _ _ _ _ ?_
    intro d hd hp
    rw [decide_eq_true_eq] at hp ⊢
    exact lt_of_lt_of_le hp (hpt d hd)
  have h4 : extremeHeatDaysOf ws ≤ extremeHeatDaysOf (w :: ws) := by
    unfold extremeHeatDaysOf
    rw [hdays]
    refine countP_map_mono _ _ _ _ ?_
    intro d hd hp
    rw [decide_eq_true_eq] at hp ⊢
    exact lt_of_lt_of_le hp (hpt d hd)
  exact heatStressScore_mono s _ _ _ _ _ _ _ _ h1 h2 h3 h4

/-- C9 witness: a one-sample window on day 0 with temperature 36 and the
added sample on the same day with temperature 37. -/
theorem c9_heat_monotonicity_witness :
    (heatIndexOf defaultSettings [⟨0, 0, 36, 0, none, none, 1⟩]).heatStressScore ≤
      (heatIndexOf defaultSettings
        (⟨0, 0, 37, 0, none, none, 1⟩ :: [⟨0, 0, 36, 0, none, none, 1⟩])).heatStressScore := by
  refine c9_heat_monotonicity defaultSettings [⟨0, 0, 36, 0, none, none, 1⟩]
    ⟨0, 0, 37, 0, none, none, 1⟩ (by simp) ?_
  show dailyMaxTemp [⟨0, 0, 36, 0, none, none, 1⟩] 0 < 37
  norm_num [dailyMaxTemp, listMax]

end Microcrop
